import Mathlib

/-!
# Verification of the CMIP6 Climate Analysis Tool core

Shallow embedding of the core components described by the repository's
design documentation: Geometry Resolver, Period Registry, Dataset
Resolver, Index Engine and Analysis Orchestrator.  The Python modules
implementing these components (`geometry_handler.py`,
`time_period_handler.py`, `cmip6_dataset.py`, `cmip6_indices.py`,
`climate_analysis_tool.py`) are not part of the checked-in sources; the
definitions below are therefore modelled from the specification, faithful
to its words, except for the notebook workflow cell of `main.ipynb`,
which is embedded from the source.
-/

namespace CMIP6

/- ## Period Registry -/

/-- Modelled from the spec: the calendar kinds recognized by the Period
Registry (`time_period_handler.py` is absent from the sources): standard
Gregorian, no-leap, and 360-day. -/
inductive Calendar where
  | standard
  | noLeap
  | day360
  deriving DecidableEq, Repr

/-- Modelled from the spec: a calendar date with year, month (1..12) and
day-of-month. -/
structure CalDate where
  year : Int
  month : Nat
  day : Nat
  deriving DecidableEq, Repr

/-- Gregorian leap-year rule. -/
def isLeapYear (y : Int) : Bool :=
  (y % 4 == 0 && y % 100 != 0) || (y % 400 == 0)

/-- Number of days of month `m` when February has `feb` days. -/
def monthLen (m : Nat) (feb : Nat) : Nat :=
  if m = 2 then feb
  else if m = 4 ∨ m = 6 ∨ m = 9 ∨ m = 11 then 30
  else 31

/-- Modelled from the spec: days in a month under each day-counting
convention (360-day months all have 30 days; no-leap February has 28). -/
def daysInMonth (c : Calendar) (y : Int) (m : Nat) : Nat :=
  match c with
  | .day360 => 30
  | .noLeap => monthLen m 28
  | .standard => monthLen m (if isLeapYear y then 29 else 28)

/-- Modelled from the spec: the documented rounding rule of calendar
conversion — round down to the nearest valid day in the target
calendar.  Year and month are kept; the day-of-month is clamped. -/
def clampDay (c : Calendar) (d : CalDate) : CalDate :=
  { d with day := min d.day (daysInMonth c d.year d.month) }

/-- Modelled from the spec: a named time interval with start/end calendar
dates and a calendar kind. -/
structure Period where
  name : String
  start : CalDate
  stop : CalDate
  calendar : Calendar
  deriving DecidableEq, Repr

/-- Chronological order on calendar dates (year, then month, then day). -/
def dateLE (a b : CalDate) : Prop :=
  a.year < b.year ∨
    (a.year = b.year ∧
      (a.month < b.month ∨ (a.month = b.month ∧ a.day ≤ b.day)))

instance : DecidablePred fun p : CalDate × CalDate => dateLE p.1 p.2 := by
  intro p
  unfold dateLE
  infer_instance

instance (a b : CalDate) : Decidable (dateLE a b) := by
  unfold dateLE
  infer_instance

/-- Modelled from the spec: `convert(period, target_calendar)` re-expresses
the period boundaries in the target calendar, producing a new Period and
rounding each boundary down to the nearest valid day. -/
def convert (p : Period) (c : Calendar) : Period :=
  { p with start := clampDay c p.start, stop := clampDay c p.stop, calendar := c }

/- ## Geometry Resolver -/

/-- Modelled from the spec: raw AOI input accepted by the Geometry
Resolver (`geometry_handler.py` is absent from the sources): a
coordinate pair, a four-corner bounding box, or a polygon coordinate
sequence.  Coordinates are (longitude, latitude) pairs. -/
inductive GeoInput where
  | point (lon lat : ℚ)
  | box (lon1 lat1 lon2 lat2 : ℚ)
  | polygon (vertices : List (ℚ × ℚ))
  deriving DecidableEq, Repr

/-- Modelled from the spec: the canonical Geometry representation — one
of Point, BoundingBox, Polygon. -/
inductive Geometry where
  | point (lon lat : ℚ)
  | boundingBox (minLon minLat maxLon maxLat : ℚ)
  | polygon (vertices : List (ℚ × ℚ))
  deriving DecidableEq, Repr

/-- A coordinate pair is in range when lon ∈ [-180,180] and lat ∈ [-90,90]. -/
def inRange (v : ℚ × ℚ) : Bool :=
  decide (-180 ≤ v.1) && decide (v.1 ≤ 180) &&
    decide (-90 ≤ v.2) && decide (v.2 ≤ 90)

/-- Twice the signed area of the triangle `a b c`; its sign gives the
orientation of `c` relative to the directed segment `a → b`. -/
def orient (a b c : ℚ × ℚ) : ℚ :=
  (b.1 - a.1) * (c.2 - a.2) - (b.2 - a.2) * (c.1 - a.1)

/-- Two segments cross properly when each straddles the line through the
other. -/
def segmentsCross (p1 p2 q1 q2 : ℚ × ℚ) : Bool :=
  decide (orient p1 p2 q1 * orient p1 p2 q2 < 0) &&
    decide (orient q1 q2 p1 * orient q1 q2 p2 < 0)

/-- The closed ring of edges of a polygon: consecutive vertex pairs plus
the closing edge back to the first vertex. -/
def polygonEdges (vs : List (ℚ × ℚ)) : List ((ℚ × ℚ) × (ℚ × ℚ)) :=
  match vs with
  | [] => []
  | v :: _ => vs.zip (vs.tail ++ [v])

/-- Modelled from the spec: polygon-simplicity check — some pair of
non-adjacent edges of the ring crosses properly.  Edges `i` and `i+1`
are adjacent, as are the first and last edge of the ring. -/
def selfIntersecting (vs : List (ℚ × ℚ)) : Bool :=
  let es := polygonEdges vs
  let n := es.length
  (List.range n).any fun i =>
    (List.range n).any fun j =>
      decide (i + 2 ≤ j) && !(decide (i = 0) && decide (j = n - 1)) &&
        match es[i]?, es[j]? with
        | some e1, some e2 => segmentsCross e1.1 e1.2 e2.1 e2.2
        | _, _ => false

/-- Modelled from the spec: the malformed-input conditions the Geometry
Resolver rejects — out-of-range coordinates, self-intersecting polygon,
or empty geometry. -/
def malformedInput (g : GeoInput) : Bool :=
  match g with
  | .point lon lat => !inRange (lon, lat)
  | .box lon1 lat1 lon2 lat2 => !(inRange (lon1, lat1) && inRange (lon2, lat2))
  | .polygon vs => vs.isEmpty || !vs.all inRange || selfIntersecting vs

/-- Error kinds of the core, modelled from the spec's error-handling
design. -/
inductive CoreError where
  | invalidGeometry
  | invalidPeriod
  | unknownDataset
  | remoteQuery
  | emptyResult
  | unknownIndex
  | indexArity
  | sessionClosed
  deriving DecidableEq, Repr

/-- Modelled from the spec: `resolve(input) -> Geometry` of the Geometry
Resolver, a pure transform that validates coordinate ranges and polygon
simplicity and fails with `InvalidGeometryError` on malformed input. -/
def resolveGeometry (g : GeoInput) : Except CoreError Geometry :=
  match g with
  | .point lon lat =>
      if inRange (lon, lat) then .ok (.point lon lat)
      else .error .invalidGeometry
  | .box lon1 lat1 lon2 lat2 =>
      if inRange (lon1, lat1) && inRange (lon2, lat2) then
        .ok (.boundingBox (min lon1 lon2) (min lat1 lat2)
          (max lon1 lon2) (max lat1 lat2))
      else .error .invalidGeometry
  | .polygon vs =>
      if vs.isEmpty then .error .invalidGeometry
      else if !vs.all inRange then .error .invalidGeometry
      else if selfIntersecting vs then .error .invalidGeometry
      else .ok (.polygon vs)

/-- An axis-aligned bounding box, the result of `bounding_box`. -/
structure BBox where
  minLon : ℚ
  maxLon : ℚ
  minLat : ℚ
  maxLat : ℚ
  deriving DecidableEq, Repr

/-- Extend a bounding box to cover one more vertex. -/
def extendBBox (b : BBox) (w : ℚ × ℚ) : BBox :=
  ⟨min b.minLon w.1, max b.maxLon w.1, min b.minLat w.2, max b.maxLat w.2⟩

/-- Modelled from the spec: `bounding_box(geometry) -> BoundingBox`, a
pure derived operation; over a polygon it is the least box covering all
vertices, `none` on an empty vertex list. -/
def bounding_box (vertices : List (ℚ × ℚ)) : Option BBox :=
  match vertices with
  | [] => none
  | v :: vs => some (vs.foldl extendBBox ⟨v.1, v.1, v.2, v.2⟩)

/-- `b` covers the vertex `w`. -/
def bboxContains (b : BBox) (w : ℚ × ℚ) : Prop :=
  b.minLon ≤ w.1 ∧ w.1 ≤ b.maxLon ∧ b.minLat ≤ w.2 ∧ w.2 ≤ b.maxLat

/- ## Dataset Resolver -/

/-- Modelled from the spec: a (model, scenario, variable) selection
(`cmip6_dataset.py` is absent from the sources). -/
structure ModelSelection where
  model : String
  scenario : String
  varId : String
  deriving DecidableEq, BEq, Repr

/-- Modelled from the spec: one entry of the external collaborator's
catalog, pairing a valid selection with the model's native calendar. -/
structure CatalogEntry where
  sel : ModelSelection
  calendar : Calendar
  deriving DecidableEq, Repr

/-- The failures of the external filter/aggregate interface: transient
`RemoteQueryError` (retryable) and `EmptyResultError` (non-retryable). -/
inductive RemoteErr where
  | remoteQuery
  | emptyResult
  deriving DecidableEq, Repr

/-- Modelled from the spec: the remote collection returned by the
external collaborator's filter query — unit metadata of the source and
the filtered per-cell time series (`none` marks no-data). -/
structure RemoteDataset where
  sourceUnit : String
  cells : List (List (Option ℤ))
  deriving DecidableEq, Repr

/-- A filter query submitted to the external compute collaborator. -/
structure Query where
  varId : String
  geometry : Geometry
  period : Period
  deriving DecidableEq, Repr

/-- Modelled from the spec: the canonical unit per variable (always
Kelvin for temperature, mm/day for precipitation). -/
def canonicalUnit (varId : String) : String :=
  if varId = "tas" ∨ varId = "tasmax" ∨ varId = "tasmin" then "K"
  else if varId = "pr" then "mm/day"
  else "1"

/-- Modelled from the spec: conversion factor recorded on the handle
when the source unit differs from the canonical unit, applied lazily at
aggregation time. -/
def unitFactor (sourceUnit targetUnit : String) : ℚ :=
  if sourceUnit = targetUnit then 1
  else if sourceUnit = "m/day" ∧ targetUnit = "mm/day" then 1000
  else if sourceUnit = "degC" ∧ targetUnit = "K" then 1
  else 1

/-- Modelled from the spec: the filtered, ready-to-aggregate remote
collection reference.  It carries the originating Geometry, Period and
unit metadata. -/
structure DatasetHandle where
  geometry : Geometry
  period : Period
  unitMeta : String
  conversionFactor : ℚ
  cells : List (List (Option ℤ))
  deriving DecidableEq, Repr

/-- Only a transient `RemoteQueryError` is retryable; `EmptyResultError`
and success are not. -/
def isRetryable : Except RemoteErr RemoteDataset → Bool
  | .error .remoteQuery => true
  | _ => false

/-- Modelled from the spec: bounded retry of a remote query.  `backend i`
is the outcome of attempt `i`; a transient `remoteQuery` failure is
retried while attempts remain, an `emptyResult` is returned immediately
and never retried.  Returns the final outcome together with the number
of attempts issued. -/
def retryLoop (backend : ℕ → Except RemoteErr RemoteDataset) :
    ℕ → ℕ → Except RemoteErr RemoteDataset × ℕ
  | 0, _ => (.error .remoteQuery, 0)
  | 1, i => (backend i, 1)
  | fuel + 2, i =>
    if isRetryable (backend i) then
      let r := retryLoop backend (fuel + 1) (i + 1)
      (r.1, r.2 + 1)
    else (backend i, 1)

/-- Modelled from the spec: `resolve(selection, geometry, period) ->
DatasetHandle` of the Dataset Resolver: (1) validate the selection
against the catalog, (2) convert the period to the model's native
calendar, (3) submit the filter query with bounded retries, (4) attach
unit metadata normalized to the canonical unit.  Also returns the number
of remote attempts issued. -/
def resolveDataset (catalog : List CatalogEntry)
    (backend : Query → ℕ → Except RemoteErr RemoteDataset)
    (limit : ℕ) (sel : ModelSelection) (g : Geometry) (p : Period) :
    Except CoreError DatasetHandle × ℕ :=
  match catalog.find? (fun e => e.sel == sel) with
  | none => (.error .unknownDataset, 0)
  | some entry =>
    let p' := convert p entry.calendar
    let q : Query := ⟨sel.varId, g, p'⟩
    let r := retryLoop (backend q) limit 0
    match r.1 with
    | .error .remoteQuery => (.error .remoteQuery, r.2)
    | .error .emptyResult => (.error .emptyResult, r.2)
    | .ok d =>
      (.ok { geometry := g, period := p',
             unitMeta := canonicalUnit sel.varId,
             conversionFactor := unitFactor d.sourceUnit (canonicalUnit sel.varId),
             cells := d.cells }, r.2)

/-- Modelled from the spec: the resolve pipeline from raw AOI input.
The Geometry Resolver validates and canonicalizes the input before any
filter query is submitted to the external compute collaborator; the
second component records the remote queries issued. -/
def resolvePipeline (catalog : List CatalogEntry)
    (backend : Query → ℕ → Except RemoteErr RemoteDataset) (limit : ℕ)
    (sel : ModelSelection) (input : GeoInput) (p : Period) :
    Except CoreError DatasetHandle × List Query :=
  match resolveGeometry input with
  | .error e => (.error e, [])
  | .ok g =>
    match catalog.find? (fun e => e.sel == sel) with
    | none => (.error .unknownDataset, [])
    | some entry =>
      ((resolveDataset catalog backend limit sel g p).1,
        [⟨sel.varId, g, convert p entry.calendar⟩])

/- ## Analysis Orchestrator: batch computation -/

/-- Modelled from the spec: the Computing phase maps every requested
(ModelSelection × Period × Index) combination to its own outcome,
collecting successes and per-combination failures side by side; no
combination is dropped and no failure aborts the rest. -/
def runBatch {C R : Type} (f : C → Except CoreError R) (cs : List C) :
    List (C × Except CoreError R) :=
  cs.map fun c => (c, f c)

/-- The outcome is a failure tagged `EmptyResultError`. -/
def isEmptyErr {R : Type} : Except CoreError R → Bool
  | .error .emptyResult => true
  | _ => false

/- ## Analysis Orchestrator: workflow state machine -/

/-- Modelled from the spec: the orchestrator's states. -/
inductive Phase where
  | idle
  | awaitingGeometry
  | awaitingPeriods
  | awaitingIndices
  | computing
  | ready
  | closed
  deriving DecidableEq, Repr

/-- Modelled from the spec: process-wide workflow state held by the
Orchestrator — current step, current selections, accumulated results,
and the open remote-session flag. -/
structure WorkflowState where
  phase : Phase
  geometry : Option Geometry
  periods : List Period
  indices : List String
  results : List (String × Except CoreError Int)
  sessionOpen : Bool
  deriving Repr

/-- Modelled from the spec: the operations driven by external
step-completion signals, plus result access and cleanup. -/
inductive OrchOp where
  | start
  | submitGeometry (g : GeoInput)
  | submitPeriods (ps : List Period)
  | submitIndices (idxs : List String)
  | finishComputing (rs : List (String × Except CoreError Int))
  | getResults
  | cleanup
  deriving Repr

/-- Modelled from the spec: one step of the orchestrator state machine.
Any operation invoked in the `Closed` state fails with
`SessionClosedError`; `cleanup()` releases the remote session and
transitions to `Closed`. -/
def applyOp (s : WorkflowState) (op : OrchOp) : Except CoreError WorkflowState :=
  if s.phase = .closed then .error .sessionClosed
  else
    match op with
    | .start => .ok { s with phase := .awaitingGeometry, sessionOpen := true }
    | .submitGeometry g =>
      match resolveGeometry g with
      | .error e => .error e
      | .ok geom => .ok { s with phase := .awaitingPeriods, geometry := some geom }
    | .submitPeriods ps => .ok { s with phase := .awaitingIndices, periods := ps }
    | .submitIndices idxs => .ok { s with phase := .computing, indices := idxs }
    | .finishComputing rs => .ok { s with phase := .ready, results := rs }
    | .getResults => .ok s
    | .cleanup => .ok { s with phase := .closed, sessionOpen := false }

/- ## Index Engine -/

/-- All-or-nothing sequencing of a time series with no-data markers:
`none` as soon as any time step is no-data. -/
def seqOption : List (Option ℤ) → Option (List ℤ)
  | [] => some []
  | none :: _ => none
  | some x :: rest => (seqOption rest).map fun xs => x :: xs

/-- Modelled from the spec: per-cell aggregation over the full time
dimension; a cell with any no-data time step aggregates to no-data,
never to zero. -/
def aggregateCell (f : List ℤ → ℤ) (series : List (Option ℤ)) : Option ℤ :=
  (seqOption series).map f

/-- Modelled from the spec: an index as an aggregation pipeline applied
per spatial cell over the whole grid. -/
def computeIndexGrid (f : List ℤ → ℤ) (grid : List (List (Option ℤ))) :
    List (Option ℤ) :=
  grid.map (aggregateCell f)

/-- Modelled from the spec: the percentile threshold of a baseline
series — the value at percentile `p` under the nearest-rank rule, i.e.
the element of rank `⌈p·n/100⌉` of the sorted series. -/
def percentileThreshold (p : ℕ) (baseline : List ℤ) : Option ℤ :=
  let sorted := baseline.insertionSort (· ≤ ·)
  let k := (p * baseline.length + 99) / 100
  sorted[k - 1]?

/-- Modelled from the spec: a percentile-based extreme index — the
threshold is computed from the baseline series and exceedances are
counted in the comparison series. -/
def exceedanceCount (p : ℕ) (baseline comparison : List ℤ) : Option ℕ :=
  (percentileThreshold p baseline).map fun t =>
    comparison.countP fun x => decide (t < x)

/-- Modelled from the spec: the percentile index on one spatial cell;
no-data anywhere in either series propagates as no-data. -/
def percentileIndexCell (p : ℕ) (baseCell compCell : List (Option ℤ)) :
    Option ℕ :=
  match seqOption baseCell, seqOption compCell with
  | some bs, some cs => exceedanceCount p bs cs
  | _, _ => none

/-- Modelled from the spec: `compute` of a percentile-based exceedance
index over a baseline handle and a comparison handle, cell by cell. -/
def computePercentileIndex (p : ℕ) (hb hc : DatasetHandle) :
    List (Option ℕ) :=
  List.zipWith (percentileIndexCell p) hb.cells hc.cells

/- ## Notebook workflow cell (from src/main.ipynb) -/

/-- A Python exception, carrying its message. -/
structure PyExn where
  msg : String
  deriving DecidableEq, Repr

/-- The fixed messages printed by the notebook's setup cell before
`tool.start()` is invoked. -/
def startBanner : List String :=
  ["\nStarting CMIP6 Analysis Tool...",
   "Follow the interactive widgets that will appear below.",
   "\nWorkflow:",
   "1. Define your area of interest",
   "2. Select analysis time periods",
   "3. Choose climate indices",
   "4. Explore results with different models"]

/-- The messages printed by the setup cell's `except` block. -/
def initErrorMsgs (e : PyExn) : List String :=
  ["Error initializing tool: " ++ e.msg,
   "\nPlease check:",
   "- Earth Engine authentication",
   "- Required dependencies",
   "- Internet connection"]

/-- Embedding of the notebook's create-and-start cell: `tool =
CMIP6AnalysisTool()` then banner prints then `tool.start()`, the whole
block wrapped in `try/except Exception`.  Returns the `tool` local (if
bound) and the printed messages; an exception escaping the cell would be
an `.error` value. -/
def setupCell {Tool : Type} (mkTool : Except PyExn Tool)
    (start : Tool → Except PyExn Unit) :
    Except PyExn (Option Tool × List String) :=
  match mkTool with
  | .error e => .ok (none, initErrorMsgs e)
  | .ok t =>
    match start t with
    | .error e => .ok (some t, startBanner ++ initErrorMsgs e)
    | .ok _ => .ok (some t, startBanner)

/-- Embedding of the notebook's cleanup cell: `if 'tool' in locals():`
then `try: tool.cleanup() ... except Exception as e: print(...)`.
Returns the printed messages and whether `tool.cleanup()` was invoked;
an exception escaping the cell would be an `.error` value. -/
def cleanupCell {Tool : Type} (toolVar : Option Tool)
    (cleanup : Tool → Except PyExn Unit) :
    Except PyExn (List String × Bool) :=
  match toolVar with
  | none => .ok ([], false)
  | some t =>
    match cleanup t with
    | .ok _ => .ok (["✓ Resources cleaned up successfully"], true)
    | .error e => .ok (["Error during cleanup: " ++ e.msg], true)

end CMIP6

namespace CMIP6

theorem clampDay_idem (c : Calendar) (d : CalDate) :
    clampDay c (clampDay c d) = clampDay c d := by
  simp [clampDay, Nat.min_assoc]

theorem clampDay_mono {a b : CalDate} (c : Calendar) (h : dateLE a b) :
    dateLE (clampDay c a) (clampDay c b) := by
  rcases h with h | ⟨hy, h | ⟨hm, hd⟩⟩
  · exact Or.inl h
  · exact Or.inr ⟨hy, Or.inl h⟩
  · refine Or.inr ⟨hy, Or.inr ⟨hm, ?_⟩⟩
    simp only [clampDay, hy, hm]
    exact min_le_min_right _ hd

/-- C3: for every period with start ≤ end and every recognized calendar,
`convert` produces a period whose start ≤ end in the target calendar,
and converting again to the same target calendar is the identity on the
already-converted period. -/
theorem convert_order_and_idem (p : Period) (c : Calendar)
    (h : dateLE p.start p.stop) :
    dateLE (convert p c).start (convert p c).stop ∧
      convert (convert p c) c = convert p c := by
  refine ⟨clampDay_mono c h, ?_⟩
  simp [convert, clampDay_idem]

/-- Witness for C3 at a concrete 360-day-calendar period converted to the
no-leap calendar. -/
theorem convert_order_and_idem_witness :
    dateLE (convert ⟨"baseline", ⟨1995, 1, 31⟩, ⟨2014, 2, 30⟩, .day360⟩ .noLeap).start
        (convert ⟨"baseline", ⟨1995, 1, 31⟩, ⟨2014, 2, 30⟩, .day360⟩ .noLeap).stop ∧
      convert (convert ⟨"baseline", ⟨1995, 1, 31⟩, ⟨2014, 2, 30⟩, .day360⟩ .noLeap) .noLeap =
        convert ⟨"baseline", ⟨1995, 1, 31⟩, ⟨2014, 2, 30⟩, .day360⟩ .noLeap :=
  convert_order_and_idem ⟨"baseline", ⟨1995, 1, 31⟩, ⟨2014, 2, 30⟩, .day360⟩ .noLeap
    (by decide)

theorem extendBBox_mono {b : BBox} {v : ℚ × ℚ} (w : ℚ × ℚ)
    (h : bboxContains b v) : bboxContains (extendBBox b w) v := by
  obtain ⟨h1, h2, h3, h4⟩ := h
  exact ⟨le_trans (min_le_left _ _) h1, le_trans h2 (le_max_left _ _),
    le_trans (min_le_left _ _) h3, le_trans h4 (le_max_left _ _)⟩

theorem extendBBox_self (b : BBox) (w : ℚ × ℚ) :
    bboxContains (extendBBox b w) w :=
  ⟨min_le_right _ _, le_max_right _ _, min_le_right _ _, le_max_right _ _⟩

theorem foldl_extendBBox_mono {v : ℚ × ℚ} :
    ∀ (vs : List (ℚ × ℚ)) (b : BBox), bboxContains b v →
      bboxContains (vs.foldl extendBBox b) v := by
  intro vs
  induction vs with
  | nil => intro b h; exact h
  | cons w ws ih =>
    intro b h
    exact ih (extendBBox b w) (extendBBox_mono w h)

theorem foldl_extendBBox_mem :
    ∀ (vs : List (ℚ × ℚ)) (b : BBox) (w : ℚ × ℚ), w ∈ vs →
      bboxContains (vs.foldl extendBBox b) w := by
  intro vs
  induction vs with
  | nil => intro b w h; cases h
  | cons u us ih =>
    intro b w h
    rcases List.mem_cons.mp h with rfl | h
    · exact foldl_extendBBox_mono us (extendBBox b w) (extendBBox_self b w)
    · exact ih (extendBBox b u) w h

/-- C4: for every valid (non-empty, in-range, non-self-intersecting)
polygon, `bounding_box` returns a box containing every vertex of the
polygon. -/
theorem bounding_box_contains_vertices (vs : List (ℚ × ℚ))
    (hvalid : malformedInput (.polygon vs) = false) :
    ∃ bb, bounding_box vs = some bb ∧ ∀ v ∈ vs, bboxContains bb v := by
  match vs with
  | [] => simp [malformedInput] at hvalid
  | v :: vs' =>
    refine ⟨vs'.foldl extendBBox ⟨v.1, v.1, v.2, v.2⟩, rfl, ?_⟩
    intro w hw
    rcases List.mem_cons.mp hw with rfl | hw
    · exact foldl_extendBBox_mono vs' _ ⟨le_refl _, le_refl _, le_refl _, le_refl _⟩
    · exact foldl_extendBBox_mem vs' _ w hw

/-- Witness for C4 at a concrete unit square. -/
theorem bounding_box_contains_vertices_witness :
    ∃ bb, bounding_box [(0, 0), (1, 0), (1, 1), (0, 1)] = some bb ∧
      ∀ v ∈ [((0 : ℚ), (0 : ℚ)), (1, 0), (1, 1), (0, 1)], bboxContains bb v :=
  bounding_box_contains_vertices [(0, 0), (1, 0), (1, 1), (0, 1)]
    (by norm_num [malformedInput, inRange, selfIntersecting, polygonEdges,
      segmentsCross, orient, List.range_succ])

theorem resolveGeometry_malformed {g : GeoInput}
    (h : malformedInput g = true) :
    resolveGeometry g = .error .invalidGeometry := by
  match g with
  | .point lon lat =>
    simp only [malformedInput, Bool.not_eq_true'] at h
    simp [resolveGeometry, h]
  | .box lon1 lat1 lon2 lat2 =>
    simp only [malformedInput, Bool.not_eq_true'] at h
    simp [resolveGeometry, h]
  | .polygon vs =>
    simp only [malformedInput, Bool.or_eq_true, Bool.not_eq_true'] at h
    rcases h with (h | h) | h
    · simp [resolveGeometry, h]
    · simp only [resolveGeometry, h, Bool.not_true]
      rcases he : vs.isEmpty <;> simp
    · simp only [resolveGeometry, h]
      rcases he : vs.isEmpty <;> rcases ha : vs.all inRange <;> simp

/-- C5: for every malformed geometry input (empty geometry, out-of-range
coordinates, or self-intersecting polygon), the resolve pipeline fails
with `InvalidGeometryError` and issues no remote query at all. -/
theorem malformed_geometry_no_remote_call (catalog : List CatalogEntry)
    (backend : Query → ℕ → Except RemoteErr RemoteDataset) (limit : ℕ)
    (sel : ModelSelection) (input : GeoInput) (p : Period)
    (hmal : malformedInput input = true) :
    resolvePipeline catalog backend limit sel input p =
      (.error .invalidGeometry, []) := by
  simp [resolvePipeline, resolveGeometry_malformed hmal]

/-- Witness for C5 at a concrete self-intersecting (bow-tie) polygon. -/
theorem malformed_geometry_no_remote_call_witness :
    resolvePipeline [⟨⟨"modelX", "ssp245", "tasmax"⟩, .standard⟩]
        (fun _ _ => .ok ⟨"K", []⟩) 3 ⟨"modelX", "ssp245", "tasmax"⟩
        (.polygon [(0, 0), (2, 2), (2, 0), (0, 2)])
        ⟨"baseline", ⟨1995, 1, 1⟩, ⟨2014, 12, 31⟩, .standard⟩ =
      (.error .invalidGeometry, []) :=
  malformed_geometry_no_remote_call _ _ _ _ _ _
    (by norm_num [malformedInput, inRange, selfIntersecting, polygonEdges,
      segmentsCross, orient, List.range_succ])

/-- C8: once `cleanup` has transitioned the workflow state to `Closed`,
every subsequently invoked operation fails with `SessionClosedError`,
and no operation succeeds in (or transitions out of) `Closed`. -/
theorem closed_state_absorbing (s s' : WorkflowState)
    (h : applyOp s .cleanup = .ok s') :
    s'.phase = .closed ∧ ∀ op, applyOp s' op = .error .sessionClosed := by
  by_cases hc : s.phase = .closed
  · simp [applyOp, hc] at h
  · simp only [applyOp, hc, if_false, Except.ok.injEq] at h
    subst h
    exact ⟨rfl, fun op => by simp [applyOp]⟩

/-- Witness for C8 at a concrete `Ready` state. -/
theorem closed_state_absorbing_witness :
    applyOp ⟨.closed, none, [], [], [], false⟩ .getResults =
      .error .sessionClosed :=
  (closed_state_absorbing ⟨.ready, none, [], [], [], true⟩
    ⟨.closed, none, [], [], [], false⟩ rfl).2 .getResults

/-- C10: in the notebook workflow cell, the cleanup step runs only when
the `tool` local exists, every exception raised by `tool.cleanup()` is
caught and reported as a printed message, and an exception during tool
construction or `start()` is likewise caught and reported — neither cell
ever propagates an exception. -/
theorem notebook_cells_catch_exceptions {Tool : Type}
    (mkTool : Except PyExn Tool) (start : Tool → Except PyExn Unit)
    (toolVar : Option Tool) (cleanup : Tool → Except PyExn Unit) :
    (cleanupCell toolVar cleanup).isOk = true ∧
    (toolVar = none → cleanupCell toolVar cleanup = .ok ([], false)) ∧
    (∀ t e, toolVar = some t → cleanup t = .error e →
      cleanupCell toolVar cleanup =
        .ok (["Error during cleanup: " ++ e.msg], true)) ∧
    (setupCell mkTool start).isOk = true ∧
    (∀ e, mkTool = .error e →
      setupCell mkTool start = .ok (none, initErrorMsgs e)) ∧
    (∀ t e, mkTool = .ok t → start t = .error e →
      setupCell mkTool start = .ok (some t, startBanner ++ initErrorMsgs e)) := by
  refine ⟨?_, ?_, ?_, ?_, ?_, ?_⟩
  · match toolVar with
    | none => rfl
    | some t =>
      simp only [cleanupCell]
      match cleanup t with
      | .ok _ => rfl
      | .error e => rfl
  · intro h; subst h; rfl
  · intro t e ht he; subst ht; simp [cleanupCell, he]
  · match hm : mkTool with
    | .error e => rfl
    | .ok t =>
      simp only [setupCell]
      match start t with
      | .ok _ => rfl
      | .error e => rfl
  · intro e he; subst he; rfl
  · intro t e ht he; subst ht; simp [setupCell, he]

/-- Witness for C10 at a concrete failing construction and failing
cleanup. -/
theorem notebook_cells_catch_exceptions_witness :
    (cleanupCell (some ()) (fun _ => .error ⟨"boom"⟩)).isOk = true ∧
    ((some () : Option Unit) = none →
      cleanupCell (some ()) (fun _ => .error ⟨"boom"⟩) = .ok ([], false)) ∧
    (∀ t e, (some () : Option Unit) = some t →
      (fun _ : Unit => Except.error (α := Unit) (⟨"boom"⟩ : PyExn)) t = .error e →
      cleanupCell (some ()) (fun _ => .error ⟨"boom"⟩) =
        .ok (["Error during cleanup: " ++ e.msg], true)) ∧
    (setupCell (Except.error (α := Unit) (⟨"no auth"⟩ : PyExn))
      (fun _ => .ok ())).isOk = true ∧
    (∀ e, (Except.error (α := Unit) (⟨"no auth"⟩ : PyExn)) = .error e →
      setupCell (Except.error (α := Unit) (⟨"no auth"⟩ : PyExn)) (fun _ => .ok ()) =
        .ok (none, initErrorMsgs e)) ∧
    (∀ t e, (Except.error (α := Unit) (⟨"no auth"⟩ : PyExn)) = .ok t →
      (fun _ : Unit => Except.ok (ε := PyExn) ()) t = .error e →
      setupCell (Except.error (α := Unit) (⟨"no auth"⟩ : PyExn)) (fun _ => .ok ()) =
        .ok (some t, startBanner ++ initErrorMsgs e)) :=
  notebook_cells_catch_exceptions (Except.error ⟨"no auth"⟩) (fun _ => .ok ())
    (some ()) (fun _ => .error ⟨"boom"⟩)

theorem isEmptyErr_of_isOk {R : Type} {r : Except CoreError R}
    (h : r.isOk = true) : isEmptyErr r = false := by
  match r with
  | .ok _ => rfl
  | .error e => simp [Except.isOk, Except.toBool] at h

/-- C2: a batch over `pre ++ c₀ :: post` in which exactly the
combination `c₀` fails with `EmptyResultError` and every other
combination succeeds completes with one result per combination, with
`N - 1` successes and exactly one `EmptyResultError`-tagged failure. -/
theorem batch_partial_failure {C R : Type} (f : C → Except CoreError R)
    (pre post : List C) (c0 : C)
    (hfail : f c0 = .error .emptyResult)
    (hpre : ∀ c ∈ pre, (f c).isOk = true)
    (hpost : ∀ c ∈ post, (f c).isOk = true) :
    (runBatch f (pre ++ c0 :: post)).length = (pre ++ c0 :: post).length ∧
    (runBatch f (pre ++ c0 :: post)).countP (fun r => r.2.isOk) =
      (pre ++ c0 :: post).length - 1 ∧
    (runBatch f (pre ++ c0 :: post)).countP (fun r => isEmptyErr r.2) = 1 := by
  have hok : ∀ (l : List C), (∀ c ∈ l, (f c).isOk = true) →
      (runBatch f l).countP (fun r => r.2.isOk) = l.length ∧
      (runBatch f l).countP (fun r => isEmptyErr r.2) = 0 := by
    intro l hl
    constructor
    · rw [runBatch, List.countP_map]
      exact List.countP_eq_length.mpr fun c hc => hl c hc
    · rw [runBatch, List.countP_map]
      exact List.countP_eq_zero.mpr fun c hc => by
        simp [Function.comp, isEmptyErr_of_isOk (hl c hc)]
  have hsplit : ∀ (p : C × Except CoreError R → Bool),
      (runBatch f (pre ++ c0 :: post)).countP p =
        (runBatch f pre).countP p + (p (c0, f c0)).toNat +
          (runBatch f post).countP p := by
    intro p
    simp only [runBatch, List.map_append, List.map_cons, List.countP_append,
      List.countP_cons]
    rcases h : p (c0, f c0)
    · simp [h]
    · simp [h]
      omega
  refine ⟨by simp [runBatch], ?_, ?_⟩
  · rw [hsplit, (hok pre hpre).1, (hok post hpost).1, hfail]
    simp [Except.isOk, Except.toBool]
  · rw [hsplit, (hok pre hpre).2, (hok post hpost).2, hfail]
    simp [isEmptyErr]

/-- Witness for C2 at a concrete three-combination batch whose middle
combination fails with `EmptyResultError`. -/
theorem batch_partial_failure_witness :
    (runBatch (fun n : ℕ => if n = 1 then .error .emptyResult else .ok n)
        ([0] ++ 1 :: [2, 3])).length = ([0] ++ 1 :: [2, 3]).length ∧
    (runBatch (fun n : ℕ => if n = 1 then .error .emptyResult else .ok n)
        ([0] ++ 1 :: [2, 3])).countP (fun r => r.2.isOk) =
      ([0] ++ 1 :: [2, 3]).length - 1 ∧
    (runBatch (fun n : ℕ => if n = 1 then .error .emptyResult else .ok n)
        ([0] ++ 1 :: [2, 3])).countP (fun r => isEmptyErr r.2) = 1 :=
  batch_partial_failure _ [0] [2, 3] 1 rfl (by decide) (by decide)

theorem retryLoop_not_retryable (backend : ℕ → Except RemoteErr RemoteDataset)
    (limit i : ℕ) (hl : 1 ≤ limit)
    (h : isRetryable (backend i) = false) :
    retryLoop backend limit i = (backend i, 1) := by
  match limit, hl with
  | 1, _ => rfl
  | fuel + 2, _ => simp [retryLoop, h]

theorem retryLoop_ok_first (backend : ℕ → Except RemoteErr RemoteDataset)
    (limit i : ℕ) (d : RemoteDataset) (hl : 1 ≤ limit)
    (h : backend i = .ok d) :
    retryLoop backend limit i = (.ok d, 1) := by
  rw [retryLoop_not_retryable backend limit i hl (by rw [h]; rfl), h]

theorem retryLoop_empty_first (backend : ℕ → Except RemoteErr RemoteDataset)
    (limit i : ℕ) (hl : 1 ≤ limit)
    (h : backend i = .error .emptyResult) :
    retryLoop backend limit i = (.error .emptyResult, 1) := by
  rw [retryLoop_not_retryable backend limit i hl (by rw [h]; rfl), h]

theorem retryLoop_all_fail (backend : ℕ → Except RemoteErr RemoteDataset)
    (hall : ∀ j, backend j = .error .remoteQuery) :
    ∀ (limit : ℕ), 1 ≤ limit → ∀ (i : ℕ),
      retryLoop backend limit i = (.error .remoteQuery, limit) := by
  intro limit
  induction limit with
  | zero => intro h; omega
  | succ fuel ih =>
    intro _ i
    cases fuel with
    | zero => simp [retryLoop, hall i]
    | succ fuel' =>
      simp [retryLoop, hall i, isRetryable, ih (by omega) (i + 1)]

theorem retryLoop_const_fst (backend : ℕ → Except RemoteErr RemoteDataset)
    (hconst : ∀ i j, backend i = backend j)
    (limit : ℕ) (hl : 1 ≤ limit) (i : ℕ) :
    (retryLoop backend limit i).1 = backend 0 := by
  cases h : backend 0 with
  | ok d =>
    rw [retryLoop_ok_first backend limit i d hl ((hconst i 0).trans h)]
  | error e =>
    cases e with
    | emptyResult =>
      rw [retryLoop_empty_first backend limit i hl ((hconst i 0).trans h)]
    | remoteQuery =>
      rw [retryLoop_all_fail backend (fun j => (hconst j 0).trans h) limit hl i]

/-- C7: a transient `RemoteQueryError` is retried up to the fixed
attempt limit and exhaustion surfaces as a per-combination failure in
the batch rather than an abort, while `EmptyResultError` is returned
after a single attempt, never retried. -/
theorem retry_policy {C : Type} (catalog : List CatalogEntry)
    (backend : Query → ℕ → Except RemoteErr RemoteDataset)
    (limit : ℕ) (sel : ModelSelection) (g : Geometry) (p : Period)
    (entry : CatalogEntry)
    (hfind : catalog.find? (fun e => e.sel == sel) = some entry)
    (hl : 1 ≤ limit) :
    (backend ⟨sel.varId, g, convert p entry.calendar⟩ 0 = .error .emptyResult →
      resolveDataset catalog backend limit sel g p = (.error .emptyResult, 1)) ∧
    ((∀ i, backend ⟨sel.varId, g, convert p entry.calendar⟩ i = .error .remoteQuery) →
      resolveDataset catalog backend limit sel g p = (.error .remoteQuery, limit)) ∧
    (∀ (cs : List C) (c0 : C) (f : C → Except CoreError DatasetHandle),
      c0 ∈ cs → f c0 = (resolveDataset catalog backend limit sel g p).1 →
      (∀ i, backend ⟨sel.varId, g, convert p entry.calendar⟩ i = .error .remoteQuery) →
      (c0, Except.error (ε := CoreError) (α := DatasetHandle) .remoteQuery) ∈
          runBatch f cs ∧
        (runBatch f cs).length = cs.length) := by
  have hempty : backend ⟨sel.varId, g, convert p entry.calendar⟩ 0 =
        .error .emptyResult →
      resolveDataset catalog backend limit sel g p = (.error .emptyResult, 1) := by
    intro h
    simp [resolveDataset, hfind,
      retryLoop_empty_first (backend ⟨sel.varId, g, convert p entry.calendar⟩)
        limit 0 hl h]
  have hexhaust : (∀ i, backend ⟨sel.varId, g, convert p entry.calendar⟩ i =
        .error .remoteQuery) →
      resolveDataset catalog backend limit sel g p = (.error .remoteQuery, limit) := by
    intro h
    simp [resolveDataset, hfind,
      retryLoop_all_fail (backend ⟨sel.varId, g, convert p entry.calendar⟩)
        h limit hl 0]
  refine ⟨hempty, hexhaust, ?_⟩
  intro cs c0 f hc0 hf hall
  constructor
  · have : f c0 = .error .remoteQuery := by rw [hf, hexhaust hall]
    exact this ▸ List.mem_map.mpr ⟨c0, hc0, rfl⟩
  · simp [runBatch]

/-- Witness for C7 at a concrete always-failing backend over a
three-combination batch. -/
theorem retry_policy_witness :
    ((fun _ : Query => fun _ : ℕ =>
        Except.error (α := RemoteDataset) RemoteErr.remoteQuery)
          ⟨"tasmax", .point 0 0,
            convert ⟨"b", ⟨1995, 1, 1⟩, ⟨2014, 12, 31⟩, .standard⟩ .standard⟩ 0 =
        .error .emptyResult →
      resolveDataset [⟨⟨"modelX", "ssp245", "tasmax"⟩, .standard⟩]
          (fun _ _ => .error .remoteQuery) 3 ⟨"modelX", "ssp245", "tasmax"⟩
          (.point 0 0) ⟨"b", ⟨1995, 1, 1⟩, ⟨2014, 12, 31⟩, .standard⟩ =
        (.error .emptyResult, 1)) ∧
    ((∀ i : ℕ, (fun _ : Query => fun _ : ℕ =>
        Except.error (α := RemoteDataset) RemoteErr.remoteQuery)
          ⟨"tasmax", .point 0 0,
            convert ⟨"b", ⟨1995, 1, 1⟩, ⟨2014, 12, 31⟩, .standard⟩ .standard⟩ i =
        .error .remoteQuery) →
      resolveDataset [⟨⟨"modelX", "ssp245", "tasmax"⟩, .standard⟩]
          (fun _ _ => .error .remoteQuery) 3 ⟨"modelX", "ssp245", "tasmax"⟩
          (.point 0 0) ⟨"b", ⟨1995, 1, 1⟩, ⟨2014, 12, 31⟩, .standard⟩ =
        (.error .remoteQuery, 3)) ∧
    (∀ (cs : List ℕ) (c0 : ℕ) (f : ℕ → Except CoreError DatasetHandle),
      c0 ∈ cs →
      f c0 = (resolveDataset [⟨⟨"modelX", "ssp245", "tasmax"⟩, .standard⟩]
          (fun _ _ => .error .remoteQuery) 3 ⟨"modelX", "ssp245", "tasmax"⟩
          (.point 0 0) ⟨"b", ⟨1995, 1, 1⟩, ⟨2014, 12, 31⟩, .standard⟩).1 →
      (∀ i : ℕ, (fun _ : Query => fun _ : ℕ =>
        Except.error (α := RemoteDataset) RemoteErr.remoteQuery)
          ⟨"tasmax", .point 0 0,
            convert ⟨"b", ⟨1995, 1, 1⟩, ⟨2014, 12, 31⟩, .standard⟩ .standard⟩ i =
        .error .remoteQuery) →
      (c0, Except.error (ε := CoreError) (α := DatasetHandle) .remoteQuery) ∈
          runBatch f cs ∧
        (runBatch f cs).length = cs.length) :=
  retry_policy [⟨⟨"modelX", "ssp245", "tasmax"⟩, .standard⟩]
    (fun _ _ => .error .remoteQuery) 3 ⟨"modelX", "ssp245", "tasmax"⟩
    (.point 0 0) ⟨"b", ⟨1995, 1, 1⟩, ⟨2014, 12, 31⟩, .standard⟩
    ⟨⟨"modelX", "ssp245", "tasmax"⟩, .standard⟩ rfl (by omega)

/-- C6: dataset resolution is deterministic — with a backend that is a
function of the query alone, resolving the same (selection, geometry,
period) under any two retry budgets yields the same outcome, and in
particular handles with identical unit metadata and identical filtered
extents. -/
theorem resolve_deterministic (catalog : List CatalogEntry)
    (backend : Query → ℕ → Except RemoteErr RemoteDataset)
    (l1 l2 : ℕ) (sel : ModelSelection) (g : Geometry) (p : Period)
    (hdet : ∀ q i j, backend q i = backend q j)
    (h1 : 1 ≤ l1) (h2 : 1 ≤ l2) :
    (resolveDataset catalog backend l1 sel g p).1 =
      (resolveDataset catalog backend l2 sel g p).1 ∧
    ∀ ha hb, (resolveDataset catalog backend l1 sel g p).1 = .ok ha →
      (resolveDataset catalog backend l2 sel g p).1 = .ok hb →
      ha.unitMeta = hb.unitMeta ∧ ha.cells = hb.cells ∧
        ha.geometry = hb.geometry ∧ ha.period = hb.period := by
  have hmain : (resolveDataset catalog backend l1 sel g p).1 =
      (resolveDataset catalog backend l2 sel g p).1 := by
    cases hfind : catalog.find? (fun e => e.sel == sel) with
    | none => simp [resolveDataset, hfind]
    | some entry =>
      cases hb0 : backend ⟨sel.varId, g, convert p entry.calendar⟩ 0 with
      | ok d =>
        simp [resolveDataset, hfind,
          retryLoop_ok_first _ l1 0 d h1 hb0,
          retryLoop_ok_first _ l2 0 d h2 hb0]
      | error e =>
        cases e with
        | emptyResult =>
          simp [resolveDataset, hfind,
            retryLoop_empty_first _ l1 0 h1 hb0,
            retryLoop_empty_first _ l2 0 h2 hb0]
        | remoteQuery =>
          have hall : ∀ j, backend ⟨sel.varId, g, convert p entry.calendar⟩ j =
              .error .remoteQuery :=
            fun j => (hdet _ j 0).trans hb0
          simp [resolveDataset, hfind,
            retryLoop_all_fail _ hall l1 h1 0,
            retryLoop_all_fail _ hall l2 h2 0]
  refine ⟨hmain, fun ha hb e1 e2 => ?_⟩
  rw [hmain, e2] at e1
  cases e1
  exact ⟨rfl, rfl, rfl, rfl⟩

/-- Witness for C6 at a concrete catalog and backend with retry budgets
1 and 2. -/
theorem resolve_deterministic_witness :
    (resolveDataset [⟨⟨"modelX", "ssp245", "pr"⟩, .day360⟩]
        (fun _ _ => .ok ⟨"mm/day", [[some 1]]⟩) 1 ⟨"modelX", "ssp245", "pr"⟩
        (.point 0 0) ⟨"b", ⟨1995, 1, 1⟩, ⟨2014, 12, 31⟩, .standard⟩).1 =
      (resolveDataset [⟨⟨"modelX", "ssp245", "pr"⟩, .day360⟩]
        (fun _ _ => .ok ⟨"mm/day", [[some 1]]⟩) 2 ⟨"modelX", "ssp245", "pr"⟩
        (.point 0 0) ⟨"b", ⟨1995, 1, 1⟩, ⟨2014, 12, 31⟩, .standard⟩).1 ∧
    ∀ ha hb,
      (resolveDataset [⟨⟨"modelX", "ssp245", "pr"⟩, .day360⟩]
        (fun _ _ => .ok ⟨"mm/day", [[some 1]]⟩) 1 ⟨"modelX", "ssp245", "pr"⟩
        (.point 0 0) ⟨"b", ⟨1995, 1, 1⟩, ⟨2014, 12, 31⟩, .standard⟩).1 = .ok ha →
      (resolveDataset [⟨⟨"modelX", "ssp245", "pr"⟩, .day360⟩]
        (fun _ _ => .ok ⟨"mm/day", [[some 1]]⟩) 2 ⟨"modelX", "ssp245", "pr"⟩
        (.point 0 0) ⟨"b", ⟨1995, 1, 1⟩, ⟨2014, 12, 31⟩, .standard⟩).1 = .ok hb →
      ha.unitMeta = hb.unitMeta ∧ ha.cells = hb.cells ∧
        ha.geometry = hb.geometry ∧ ha.period = hb.period :=
  resolve_deterministic [⟨⟨"modelX", "ssp245", "pr"⟩, .day360⟩]
    (fun _ _ => .ok ⟨"mm/day", [[some 1]]⟩) 1 2 ⟨"modelX", "ssp245", "pr"⟩
    (.point 0 0) ⟨"b", ⟨1995, 1, 1⟩, ⟨2014, 12, 31⟩, .standard⟩
    (fun _ _ _ => rfl) (by omega) (by omega)

theorem seqOption_eq_none_of_mem {cell : List (Option ℤ)}
    (h : none ∈ cell) : seqOption cell = none := by
  induction cell with
  | nil => cases h
  | cons o rest ih =>
    match o with
    | none => rfl
    | some x =>
      rcases List.mem_cons.mp h with h' | h'
      · cases h'
      · simp [seqOption, ih h']

theorem seqOption_map_some (vals : List ℤ) :
    seqOption (vals.map some) = some vals := by
  induction vals with
  | nil => rfl
  | cons x rest ih => simp [seqOption, ih]

/-- C9: every index is aggregated per spatial cell over the full time
dimension — a cell whose series is complete aggregates to the reducer
applied to the whole series — and every cell with missing/no-data time
steps yields no-data in the result, never a numeric value. -/
theorem index_nodata_propagation (f : List ℤ → ℤ)
    (grid : List (List (Option ℤ))) :
    (computeIndexGrid f grid).length = grid.length ∧
    ∀ (i : ℕ) (cell : List (Option ℤ)), grid[i]? = some cell →
      ((none ∈ cell → (computeIndexGrid f grid)[i]? = some none) ∧
       ∀ vals, cell = vals.map some →
         (computeIndexGrid f grid)[i]? = some (some (f vals))) := by
  refine ⟨by simp [computeIndexGrid], ?_⟩
  intro i cell hcell
  have hmap : (computeIndexGrid f grid)[i]? = some (aggregateCell f cell) := by
    rw [computeIndexGrid, List.getElem?_map, hcell]
    rfl
  constructor
  · intro hnone
    rw [hmap, aggregateCell, seqOption_eq_none_of_mem hnone]
    rfl
  · intro vals hvals
    rw [hmap, hvals, aggregateCell, seqOption_map_some]
    rfl

/-- Witness for C9 at a concrete two-cell grid, one cell with a no-data
step and one complete, under the sum reducer. -/
theorem index_nodata_propagation_witness :
    (computeIndexGrid (fun l => l.sum)
        [[some 1, none], [some 2, some 3]])[0]? = some none ∧
    (computeIndexGrid (fun l => l.sum)
        [[some 1, none], [some 2, some 3]])[1]? =
      some (some (([2, 3] : List ℤ).sum)) :=
  ⟨((index_nodata_propagation (fun l => l.sum)
      [[some 1, none], [some 2, some 3]]).2 0 [some 1, none] rfl).1
      (by simp),
   ((index_nodata_propagation (fun l => l.sum)
      [[some 1, none], [some 2, some 3]]).2 1 [some 2, some 3] rfl).2
      [2, 3] rfl⟩

theorem countP_gt_rank :
    ∀ (l : List ℤ), l.Sorted (· < ·) → ∀ (k : ℕ), 1 ≤ k → ∀ (t : ℤ),
      l[k - 1]? = some t →
      l.countP (fun x => decide (t < x)) = l.length - k := by
  intro l
  induction l with
  | nil => intro _ k _ t ht; simp at ht
  | cons a rest ih =>
    intro hsort k hk t ht
    obtain ⟨hha, hrest⟩ := List.sorted_cons.mp hsort
    match k, hk with
    | 1, _ =>
      simp only [Nat.sub_self, List.getElem?_cons_zero, Option.some.injEq] at ht
      subst ht
      rw [List.countP_cons]
      have hall : rest.countP (fun x => decide (a < x)) = rest.length :=
        List.countP_eq_length.mpr fun b hb => decide_eq_true (hha b hb)
      simp [hall]
    | k' + 2, _ =>
      have ht' : rest[k' + 1 - 1]? = some t := by
        simpa using ht
      have htmem : t ∈ rest := by
        obtain ⟨hlt, hget⟩ := List.getElem?_eq_some.mp ht'
        exact hget ▸ List.getElem_mem hlt
      have hat : a < t := hha t htmem
      have hklen : k' < rest.length := by
        obtain ⟨hlt, _⟩ := List.getElem?_eq_some.mp ht'
        omega
      rw [List.countP_cons]
      have hcnt := ih hrest (k' + 1) (by omega) t ht'
      have hna : decide (t < a) = false := decide_eq_false (asymm hat)
      rw [hcnt, hna]
      simp only [Bool.false_eq_true, if_false, add_zero, List.length_cons]
      omega

/-- C1: a percentile-based exceedance index computed with the baseline
handle also used as the comparison handle counts, per spatial cell with
a complete tie-free series, a fraction of the period's time steps equal
to the percentile's defining exceedance rate (100 − p)%, within one time
step. -/
theorem percentile_self_comparison (p : ℕ) (h : DatasetHandle) (i : ℕ)
    (cell : List (Option ℤ)) (vals : List ℤ)
    (hcell : h.cells[i]? = some cell) (hvals : cell = vals.map some)
    (hnd : vals.Nodup) (hne : vals ≠ []) (hp1 : 1 ≤ p) (hp2 : p ≤ 100) :
    ∃ c, (computePercentileIndex p h h)[i]? = some (some c) ∧
      100 * c ≤ (100 - p) * vals.length ∧
      (100 - p) * vals.length < 100 * (c + 1) := by
  have hn : 1 ≤ vals.length := List.length_pos.mpr hne
  have hperm : (List.insertionSort (· ≤ ·) vals).Perm vals :=
    List.perm_insertionSort (· ≤ ·) vals
  have hlen : (List.insertionSort (· ≤ ·) vals).length = vals.length :=
    hperm.length_eq
  have hsortlt : (List.insertionSort (· ≤ ·) vals).Sorted (· < ·) :=
    (List.sorted_insertionSort (· ≤ ·) vals).lt_of_le (hperm.nodup_iff.mpr hnd)
  have hdm := Nat.div_add_mod (p * vals.length + 99) 100
  have hmod : (p * vals.length + 99) % 100 < 100 := Nat.mod_lt _ (by omega)
  have hpn1 : 1 ≤ p * vals.length := Nat.mul_pos hp1 hn
  have hpn100 : p * vals.length ≤ 100 * vals.length :=
    Nat.mul_le_mul_right vals.length hp2
  have hkub : (p * vals.length + 99) / 100 - 1 <
      (List.insertionSort (· ≤ ·) vals).length := by
    rw [hlen]; omega
  obtain ⟨t, hts⟩ : ∃ t,
      (List.insertionSort (· ≤ ·) vals)[(p * vals.length + 99) / 100 - 1]? = some t :=
    ⟨_, List.getElem?_eq_getElem hkub⟩
  have hcnt := countP_gt_rank (List.insertionSort (· ≤ ·) vals) hsortlt
    ((p * vals.length + 99) / 100) (by omega) _ hts
  refine ⟨vals.length - (p * vals.length + 99) / 100, ?_, ?_, ?_⟩
  · have hzip : (computePercentileIndex p h h)[i]? =
        some (percentileIndexCell p cell cell) := by
      rw [computePercentileIndex, List.getElem?_zipWith, hcell]
    rw [hzip, hvals]
    simp only [percentileIndexCell, seqOption_map_some, exceedanceCount,
      percentileThreshold]
    rw [hts]
    simp only [Option.map_some']
    rw [(hperm.countP_eq _).symm, hcnt, hlen]
  · rw [Nat.sub_mul]
    omega
  · rw [Nat.sub_mul]
    omega

/-- Witness for C1 at a concrete ten-step baseline series and the 90th
percentile: exactly one of ten time steps exceeds the threshold. -/
theorem percentile_self_comparison_witness :
    ∃ c, (computePercentileIndex 90
        ⟨.point 0 0, ⟨"b", ⟨1995, 1, 1⟩, ⟨2014, 12, 31⟩, .standard⟩, "K", 1,
          [[some 1, some 2, some 3, some 4, some 5,
            some 6, some 7, some 8, some 9, some 10]]⟩
        ⟨.point 0 0, ⟨"b", ⟨1995, 1, 1⟩, ⟨2014, 12, 31⟩, .standard⟩, "K", 1,
          [[some 1, some 2, some 3, some 4, some 5,
            some 6, some 7, some 8, some 9, some 10]]⟩)[0]? = some (some c) ∧
      100 * c ≤ (100 - 90) * ([1, 2, 3, 4, 5, 6, 7, 8, 9, 10] : List ℤ).length ∧
      (100 - 90) * ([1, 2, 3, 4, 5, 6, 7, 8, 9, 10] : List ℤ).length < 100 * (c + 1) :=
  percentile_self_comparison 90
    ⟨.point 0 0, ⟨"b", ⟨1995, 1, 1⟩, ⟨2014, 12, 31⟩, .standard⟩, "K", 1,
      [[some 1, some 2, some 3, some 4, some 5,
        some 6, some 7, some 8, some 9, some 10]]⟩ 0
    [some 1, some 2, some 3, some 4, some 5,
      some 6, some 7, some 8, some 9, some 10]
    [1, 2, 3, 4, 5, 6, 7, 8, 9, 10]
    rfl rfl (by decide) (by decide) (by decide) (by decide)

end CMIP6
